import Mathlib

/-!
Verification development for the ReminderBot repository (src/bot.py and
src/sync_tasks.py): a shallow embedding of the reminder data model, the
service layer (create / list / delete / restore), the APScheduler-backed
timer state it manipulates, and the user-facing time-string parser,
together with theorems about the behaviour of those operations.

Machine conventions: SQL DateTime values and epoch timestamps are
modelled as `Int` (an abstract linear time scale); Python exceptions are
modelled by explicit error values (`PyErr`, `PErr`); the mutable database
session and scheduler are modelled by explicit state passing.
-/

/-- Python exceptions that the service layer can raise or catch.
`valueError` covers pydantic validation failures (they wrap ValueError),
`integrityError` is sqlite's unique-constraint violation on commit,
`jobLookupError` is APScheduler's error for removing a missing job, and
`multipleResults` is SQLAlchemy's error for `scalar_one_or_none` on a
non-singleton result. -/
inductive PyErr where
  | valueError
  | integrityError
  | jobLookupError
  | multipleResults
deriving DecidableEq

/-- One row of the `reminders` table (class ReminderModel, bot.py:56-66).
Fields follow the column order; `created_at` is filled at insert time. -/
structure Reminder where
  id : Int
  user_id : Int
  chat_id : Int
  text : String
  remind_time : Int
  created_at : Int
  job_id : String
deriving DecidableEq

/-- The durable reminder store (the `reminders` table plus the
autoincrement counter for the integer primary key). -/
structure Store where
  reminders : List Reminder
  nextId : Int
deriving DecidableEq

/-- One APScheduler job: id, the DateTrigger fire time, and the payload
`(chat_id, text)` passed to `sync_tasks.send_reminder`. -/
structure Job where
  id : String
  fire_time : Int
  chat_id : Int
  text : String
deriving DecidableEq

/-- The AsyncIOScheduler state. While the scheduler is stopped
(`running = false`, i.e. before `scheduler.start()`), jobs added go to
the in-memory `_pending_jobs` list, modelled by `pending`; once running,
jobs live in the configured SQLAlchemyJobStore (`jobs.db`), modelled by
`jobstore`, which is durable. -/
structure Scheduler where
  running : Bool
  pending : List Job
  jobstore : List Job
deriving DecidableEq

/-- Replace-or-append used by `add_job(..., replace_existing=True)` on a
running scheduler. -/
def upsertJob (l : List Job) (j : Job) : List Job :=
  if l.any (fun x => x.id == j.id) then
    l.map (fun x => if x.id == j.id then j else x)
  else l ++ [j]

/-- APScheduler `BaseScheduler.add_job` with `replace_existing=True`:
on a stopped scheduler the job is appended to `_pending_jobs`
(realised at `start()`); on a running scheduler it is upserted into the
job store. -/
def Scheduler.add_job (s : Scheduler) (j : Job) : Scheduler :=
  if s.running then { s with jobstore := upsertJob s.jobstore j }
  else { s with pending := s.pending ++ [j] }

/-- APScheduler `BaseScheduler.get_job`: a stopped scheduler searches its
pending list, a running one its job store. -/
def Scheduler.get_job (s : Scheduler) (jid : String) : Option Job :=
  if s.running then s.jobstore.find? (fun x => x.id == jid)
  else s.pending.find? (fun x => x.id == jid)

/-- APScheduler `BaseScheduler.remove_job`: removes the job with the
given id, raising JobLookupError when no such job exists. -/
def Scheduler.remove_job (s : Scheduler) (jid : String) : Except PyErr Scheduler :=
  if s.running then
    if s.jobstore.any (fun x => x.id == jid) then
      .ok { s with jobstore := s.jobstore.filter (fun x => !(x.id == jid)) }
    else .error .jobLookupError
  else
    if s.pending.any (fun x => x.id == jid) then
      .ok { s with pending := s.pending.filter (fun x => !(x.id == jid)) }
    else .error .jobLookupError

/-- APScheduler `BaseScheduler.remove_all_jobs`: on a stopped scheduler
only the in-memory `_pending_jobs` list is cleared and the durable job
stores are not touched; on a running scheduler every job store is
emptied. -/
def Scheduler.remove_all_jobs (s : Scheduler) : Scheduler :=
  if s.running then { s with jobstore := [] }
  else { s with pending := [] }

/-- Python `str.strip()` restricted to the ASCII whitespace characters. -/
def isPySpace (c : Char) : Bool :=
  c == ' ' || c == '\t' || c == '\n' || c == '\r' || c == '\x0b' || c == '\x0c'

/-- Python `str.strip()`: drop leading and trailing whitespace. -/
def pyStrip (s : String) : String :=
  String.mk (((s.toList.dropWhile isPySpace).reverse.dropWhile isPySpace).reverse)

/-- Pydantic validator `ReminderCreate.validate_text` (bot.py:76-80):
reject when the RAW length exceeds 500, otherwise return the stripped
text. Note that the length check precedes the strip and that an empty
or whitespace-only text is accepted. -/
def validate_text (v : String) : Except PyErr String :=
  if v.length > 500 then .error .valueError else .ok (pyStrip v)

/-- Pydantic validator `ReminderCreate.validate_remind_time`
(bot.py:82-86): reject unless the time is strictly after `now` in the
configured zone. -/
def validate_remind_time (now : Int) (v : Int) : Except PyErr Int :=
  if v ≤ now then .error .valueError else .ok v

/-- The validated pydantic model `ReminderCreate` (bot.py:69-86). -/
structure ReminderCreate where
  user_id : Int
  chat_id : Int
  text : String
  remind_time : Int
deriving DecidableEq

/-- Constructing a `ReminderCreate` runs the two validators in field
order (text, then remind_time), as pydantic does. -/
def mkReminderCreate (now : Int) (uid cid : Int) (text : String) (rt : Int) :
    Except PyErr ReminderCreate :=
  match validate_text text with
  | .error e => .error e
  | .ok t =>
    match validate_remind_time now rt with
    | .error e => .error e
    | .ok v => .ok ⟨uid, cid, t, v⟩

/-- `job_id = f"reminder_{user_id}_{int(datetime.now().timestamp())}"`
(bot.py:142); `nowTs` is the current epoch second. -/
def mkJobId (user_id : Int) (nowTs : Int) : String :=
  "reminder_" ++ toString user_id ++ "_" ++ toString nowTs

/-- `ReminderService.create_reminder` (bot.py:140-170): generate the
job id, defensively remove any scheduler job with that id (errors
swallowed by the bare `except: pass`), insert the row (the unique
constraint on `job_id` makes the commit raise IntegrityError on a
duplicate), then arm the scheduler job with the reminder payload.
Returns the outcome together with the resulting store and scheduler. -/
def create_reminder (st : Store) (sched : Scheduler) (nowTs : Int) (r : ReminderCreate) :
    (Except PyErr Reminder) × Store × Scheduler :=
  let job_id := mkJobId r.user_id nowTs
  let sched1 :=
    match sched.get_job job_id with
    | some _ =>
      match sched.remove_job job_id with
      | .ok s1 => s1
      | .error _ => sched
    | none => sched
  if st.reminders.any (fun x => x.job_id == job_id) then
    (.error .integrityError, st, sched1)
  else
    let m : Reminder :=
      ⟨st.nextId, r.user_id, r.chat_id, r.text, r.remind_time, nowTs, job_id⟩
    let st1 : Store := ⟨st.reminders ++ [m], st.nextId + 1⟩
    (.ok m, st1, sched1.add_job ⟨job_id, r.remind_time, r.chat_id, r.text⟩)

/-- The creation path of `BotHandlers.handle_text_input` (bot.py:429-437):
construct the validated `ReminderCreate`, then call
`ReminderService.create_reminder`. A validation failure leaves both the
store and the scheduler untouched. -/
def createFlow (st : Store) (sched : Scheduler) (now nowTs uid cid : Int)
    (text : String) (rt : Int) : (Except PyErr Reminder) × Store × Scheduler :=
  match mkReminderCreate now uid cid text rt with
  | .error e => (.error e, st, sched)
  | .ok rc => create_reminder st sched nowTs rc

/-- The SQL ordering used by `order_by(ReminderModel.remind_time)`. -/
def remLE (a b : Reminder) : Prop := a.remind_time ≤ b.remind_time

instance : DecidableRel remLE :=
  fun a b => inferInstanceAs (Decidable (a.remind_time ≤ b.remind_time))

instance : IsTotal Reminder remLE :=
  ⟨fun a b => Int.le_total a.remind_time b.remind_time⟩

instance : IsTrans Reminder remLE :=
  ⟨fun _ _ _ h1 h2 => le_trans h1 h2⟩

/-- `ReminderService.get_user_reminders` (bot.py:172-181): the rows of
the given user with `remind_time` strictly after now, ordered by
`remind_time` ascending. A pure query: the store is not modified. -/
def get_user_reminders (st : Store) (user_id : Int) (now : Int) : List Reminder :=
  List.insertionSort remLE
    (st.reminders.filter (fun r => r.user_id == user_id && decide (now < r.remind_time)))

/-- SQLAlchemy `scalar_one_or_none` on
`select(ReminderModel.job_id).where(id == reminder_id)`: `none` when no
row matches, the single job_id when one does, and MultipleResultsFound
when several do (impossible for the integer primary key). -/
def scalarOneOrNone (l : List Reminder) (rid : Int) : Except PyErr (Option String) :=
  match l.filter (fun x => x.id == rid) with
  | [] => .ok none
  | [r] => .ok (some r.job_id)
  | _ => .error .multipleResults

/-- `ReminderService.delete_reminder` (bot.py:183-205): look up the
row's job_id; `if job_id:` is Python truthiness, so both a missing row
and an empty-string job_id take the `return False` branch; otherwise the
row is deleted, the scheduler job removal is attempted with any failure
logged and swallowed, and True is returned. -/
def delete_reminder (st : Store) (sched : Scheduler) (rid : Int) :
    (Except PyErr Bool) × Store × Scheduler :=
  match scalarOneOrNone st.reminders rid with
  | .error e => (.error e, st, sched)
  | .ok none => (.ok false, st, sched)
  | .ok (some jid) =>
    if jid == "" then (.ok false, st, sched)
    else
      let st1 : Store := ⟨st.reminders.filter (fun x => !(x.id == rid)), st.nextId⟩
      let sched1 :=
        match sched.remove_job jid with
        | .ok s1 => s1
        | .error _ => sched
      (.ok true, st1, sched1)

/-- The scheduler job armed for a reminder by the reconciliation pass. -/
def Reminder.toJob (r : Reminder) : Job :=
  ⟨r.job_id, r.remind_time, r.chat_id, r.text⟩

/-- `ReminderService.restore_reminders` (bot.py:214-237): clear all
scheduler jobs, select the rows with `remind_time` strictly after now,
and arm one job per selected row; each `add_job` sits in its own
`try/except`, so a failing arm (modelled by the oracle `armFails`) is
logged and skipped without aborting the loop. Called by `main()` before
`scheduler.start()`, i.e. on a stopped scheduler. -/
def restore_reminders (st : Store) (sched : Scheduler) (now : Int)
    (armFails : Reminder → Bool) : Scheduler :=
  let sched0 := sched.remove_all_jobs
  let active := st.reminders.filter (fun r => decide (now < r.remind_time))
  active.foldl (fun sc r => if armFails r then sc else sc.add_job r.toJob) sched0

/-- Whether the Telegram transport succeeds or raises when
`bot.send_message` is called (the external outcome). -/
inductive TgOutcome where
  | success
  | failure
deriving DecidableEq

/-- Observable effects of the sync task functions. -/
inductive Effect where
  | sent (chat_id : Int) (text : String)
  | logError
deriving DecidableEq

/-- `bot.send_message(chat_id, f"⏰ Напоминание: {text}")` inside
`sync_tasks.send_reminder`: returns the send effect, or raises on
transport failure. -/
def sendMessage (o : TgOutcome) (chat_id : Int) (text : String) :
    Except Unit (List Effect) :=
  match o with
  | .success => .ok [.sent chat_id ("⏰ Напоминание: " ++ text)]
  | .failure => .error ()

/-- `sync_tasks.send_reminder` (sync_tasks.py:6-12): the whole body is
wrapped in `try/except Exception`, with failures logged; the function
returns normally in every case. -/
def send_reminder (o : TgOutcome) (chat_id : Int) (text : String) :
    Except Unit (List Effect) :=
  match sendMessage o chat_id text with
  | .ok t => .ok t
  | .error _ => .ok [.logError]

/-- The `for attempt in range(max_retries)` loop body of
`send_reminder_with_retry` (sync_tasks.py:17-23), recursing on the
number of remaining attempts. A normal return from `send_reminder` hits
`break`; an exception from it would be retried, logging on the last
attempt. Returns the accumulated effects and the number of attempts
made. -/
def retryGo (o : TgOutcome) (cid : Int) (txt : String) : Nat → List Effect × Nat
  | 0 => ([], 0)
  | n + 1 =>
    match send_reminder o cid txt with
    | .ok t => (t, 1)
    | .error _ =>
      if n = 0 then ([.logError], 1)
      else
        let r := retryGo o cid txt n
        (r.1, r.2 + 1)

/-- `sync_tasks.send_reminder_with_retry` (sync_tasks.py:15-23). -/
def send_reminder_with_retry (o : TgOutcome) (cid : Int) (txt : String)
    (max_retries : Nat) : List Effect × Nat :=
  retryGo o cid txt max_retries

/-! ## The time-input parser (class TimeInputParser, bot.py:241-302)

Python datetimes are modelled by a proleptic-Gregorian ordinal day
(`date.toordinal()`, 1 = 0001-01-01, 3652059 = 9999-12-31) together
with the minute of the day; the parser only ever produces whole-minute
datetimes. Exceptions raised inside the parser are `PErr` values;
`TimeInputParser.parse` catches exactly `ValueError` and `IndexError`,
as its `except (ValueError, IndexError)` clause does. -/

/-- Exceptions arising inside TimeInputParser. -/
inductive PErr where
  | valueError
  | indexError
  | overflowError
deriving DecidableEq

/-- A timezone-aware Python datetime at whole-minute resolution:
`ord` is `self.date().toordinal()`, `minuteOfDay` is
`60 * self.hour + self.minute`. -/
structure PyDateTime where
  ord : Int
  minuteOfDay : Int
deriving DecidableEq

/-- `date.max.toordinal()` (9999-12-31). -/
def maxOrdinal : Int := 3652059

/-- Python `str.lower()` on the character ranges the parser can meet
(ASCII letters and the Cyrillic А-Я/Ё block). -/
def pyLowerChar (c : Char) : Char :=
  if c.toNat ≥ 65 && c.toNat ≤ 90 then Char.ofNat (c.toNat + 32)
  else if c.toNat ≥ 0x410 && c.toNat ≤ 0x42F then Char.ofNat (c.toNat + 32)
  else if c.toNat == 0x401 then Char.ofNat 0x451
  else c

/-- Python `str.lower()`. -/
def pyLower (s : String) : String :=
  String.mk (s.toList.map pyLowerChar)

/-- Scanner for Python `str.split()` with no separator: accumulate the
current word, emitting it at each whitespace run, so only non-empty
pieces appear. -/
def splitWSGo : List Char → List Char → List (List Char)
  | [], acc => if acc.isEmpty then [] else [acc.reverse]
  | c :: cs, acc =>
    if isPySpace c then
      if acc.isEmpty then splitWSGo cs [] else acc.reverse :: splitWSGo cs []
    else splitWSGo cs (c :: acc)

/-- Python `str.split()` with no separator: split on whitespace runs,
discarding empty pieces. -/
def pySplitWS (s : String) : List String :=
  (splitWSGo s.toList []).map String.mk

/-- Scanner for Python `str.split(sep)` with a non-empty separator:
left-to-right, non-overlapping. The fuel argument bounds the number of
steps; it is initialised to the input length plus one, which always
suffices since every step consumes at least one character. -/
def splitGo (sep : List Char) : Nat → List Char → List Char → List (List Char)
  | _, [], acc => [acc.reverse]
  | 0, rest, acc => [acc.reverse ++ rest]
  | fuel + 1, c :: cs, acc =>
    if sep.isPrefixOf (c :: cs) then
      acc.reverse :: splitGo sep fuel ((c :: cs).drop sep.length) []
    else
      splitGo sep fuel cs (c :: acc)

/-- Python `str.split(sep)` for a non-empty separator. -/
def pySplitOn (s : String) (sep : String) : List String :=
  (splitGo sep.toList (s.toList.length + 1) s.toList []).map String.mk

/-- Python `needle in haystack` (substring containment), for a
non-empty needle. -/
def pyContains (haystack : String) (needle : String) : Bool :=
  (pySplitOn haystack needle).length ≥ 2

/-- Python `str.startswith`. -/
def pyStartsWith (s : String) (p : String) : Bool :=
  p.toList.isPrefixOf s.toList

/-- Numeric value of a list of decimal digit characters. -/
def digitsVal (cs : List Char) : Int :=
  cs.foldl (fun a c => a * 10 + (Int.ofNat (c.toNat - 48))) 0

/-- Python `int(str)`: strip whitespace, optional single sign, then a
non-empty run of decimal digits; anything else raises ValueError. -/
def pyInt (s : String) : Except PErr Int :=
  let cs := ((s.toList.dropWhile isPySpace).reverse.dropWhile isPySpace).reverse
  match cs with
  | '+' :: rest =>
    if rest ≠ [] && rest.all Char.isDigit then .ok (digitsVal rest) else .error .valueError
  | '-' :: rest =>
    if rest ≠ [] && rest.all Char.isDigit then .ok (-(digitsVal rest)) else .error .valueError
  | rest =>
    if rest ≠ [] && rest.all Char.isDigit then .ok (digitsVal rest) else .error .valueError

/-- Python `timedelta(minutes=m)` (also covering `hours=` and `days=`
after conversion to minutes): the normalised day count must have
magnitude at most 999999999, otherwise OverflowError is raised. The
value of the delta is kept in minutes. -/
def tdOfMinutes (m : Int) : Except PErr Int :=
  if (Int.fdiv m 1440).natAbs > 999999999 then .error .overflowError else .ok m

/-- Python `datetime + timedelta`: OverflowError when the result falls
outside 0001-01-01 .. 9999-12-31. -/
def pyAddMinutes (dt : PyDateTime) (m : Int) : Except PErr PyDateTime :=
  let total := dt.ord * 1440 + dt.minuteOfDay + m
  let o := Int.fdiv total 1440
  if o < 1 || o > maxOrdinal then .error .overflowError
  else .ok ⟨o, Int.emod total 1440⟩

/-- `TimeInputParser._parse_relative` (bot.py:257-272): `parts[1]` and
`parts[2]` raise IndexError when missing, `int` raises ValueError on a
non-number, the unit is recognised by substring containment, and the
timedelta construction / datetime addition can raise OverflowError. -/
def parseRelative (text : String) (now : PyDateTime) : Except PErr PyDateTime := do
  let parts := pySplitWS text
  let p1 ← match parts[1]? with
    | some x => Except.ok x
    | none => Except.error PErr.indexError
  let num ← pyInt p1
  let unit ← match parts[2]? with
    | some x => Except.ok x
    | none => Except.error PErr.indexError
  let mins ←
    if pyContains unit "мин" || pyContains unit "min" then tdOfMinutes num
    else if pyContains unit "час" || pyContains unit "hour" then tdOfMinutes (num * 60)
    else if pyContains unit "день" || pyContains unit "ден" || pyContains unit "day" then
      tdOfMinutes (num * 1440)
    else Except.error PErr.valueError
  pyAddMinutes now mins

/-- `TimeInputParser._parse_absolute` (bot.py:274-289): pick tomorrow's
or today's date, take the piece after the first "в " as the time part,
read `hh:mm` or a bare hour, and build the datetime through
`.replace(hour=..., minute=...)`, which range-checks both fields. -/
def parseAbsolute (text : String) (now : PyDateTime) : Except PErr PyDateTime := do
  let (dateOrd, time_part) ←
    if pyContains text "завтра" then do
      let d ← if now.ord + 1 > maxOrdinal then Except.error PErr.overflowError
              else Except.ok (now.ord + 1)
      let tp ← match (pySplitOn text "в ")[1]? with
        | some x => Except.ok x
        | none => Except.error PErr.indexError
      Except.ok (d, tp)
    else
      Except.ok (now.ord,
        if pyContains text "в " then (pySplitOn text "в ").getD 1 "" else text)
  let (hours, minutes) ←
    if pyContains time_part ":" then
      match pySplitOn time_part ":" with
      | [a, b] => do
        let h ← pyInt a
        let m ← pyInt b
        Except.ok (h, m)
      | _ => Except.error PErr.valueError
    else do
      let h ← pyInt time_part
      Except.ok (h, (0 : Int))
  if hours < 0 || hours > 23 then Except.error PErr.valueError
  else if minutes < 0 || minutes > 59 then Except.error PErr.valueError
  else Except.ok ⟨dateOrd, hours * 60 + minutes⟩

/-- Gregorian leap year. -/
def isLeap (y : Int) : Bool :=
  y % 4 == 0 && (y % 100 != 0 || y % 400 == 0)

/-- Days in a month of the proleptic Gregorian calendar. -/
def daysInMonth (y m : Int) : Int :=
  if m == 2 then (if isLeap y then 29 else 28)
  else if m == 4 || m == 6 || m == 9 || m == 11 then 30
  else 31

/-- `date(y, 1, 1).toordinal() - 1`: days before year `y`. -/
def daysBeforeYear (y : Int) : Int :=
  let yy := y - 1
  365 * yy + yy / 4 - yy / 100 + yy / 400

/-- Days in year `y` before month `m` (for `m` between 1 and 12). -/
def daysBeforeMonth (y m : Int) : Int :=
  (List.range (m - 1).toNat).foldl (fun acc i => acc + daysInMonth y (Int.ofNat i + 1)) 0

/-- `date(y, m, d).toordinal()`. -/
def toOrdinal (y m d : Int) : Int :=
  daysBeforeYear y + daysBeforeMonth y m + d

/-- Take the leading run of decimal digits. -/
def takeDigits : List Char → List Char × List Char
  | [] => ([], [])
  | c :: cs =>
    if c.isDigit then
      let r := takeDigits cs
      (c :: r.1, r.2)
    else ([], c :: cs)

/-- Match a 1- or 2-digit numeric strptime field. The CPython field
regexes accept a single digit satisfying `ok1` or a two-digit value
satisfying `ok2`; a longer digit run or an out-of-range value makes the
overall match fail with ValueError (the separators in the three formats
used here are non-digits, so regex backtracking cannot rescue such a
run). -/
def matchNum2 (ok1 ok2 : Int → Bool) (cs : List Char) : Except PErr (Int × List Char) :=
  let r := takeDigits cs
  match r.1 with
  | [d] =>
    let v := digitsVal [d]
    if ok1 v then .ok (v, r.2) else .error .valueError
  | [d1, d2] =>
    let v := digitsVal [d1, d2]
    if ok2 v then .ok (v, r.2) else .error .valueError
  | _ => .error .valueError

/-- Match the exactly-four-digit `%Y` strptime field. -/
def matchYear (cs : List Char) : Except PErr (Int × List Char) :=
  let r := takeDigits cs
  match r.1 with
  | [a, b, c, d] => .ok (digitsVal [a, b, c, d], r.2)
  | _ => .error .valueError

/-- Match a literal separator character of a strptime format. -/
def matchLit (ch : Char) (cs : List Char) : Except PErr (List Char) :=
  match cs with
  | c :: rest => if c == ch then .ok rest else .error .valueError
  | [] => .error .valueError

/-- Match the `\s+` that strptime compiles a whitespace run in the
format string into. -/
def matchSpaces (cs : List Char) : Except PErr (List Char) :=
  match cs with
  | c :: rest =>
    if isPySpace c then .ok (rest.dropWhile isPySpace) else .error .valueError
  | [] => .error .valueError

/-- `%d` field: one digit 1-9 or two digits 01-31. -/
def matchDay (cs : List Char) : Except PErr (Int × List Char) :=
  matchNum2 (fun v => 1 ≤ v && v ≤ 9) (fun v => 1 ≤ v && v ≤ 31) cs

/-- `%m` field: one digit 1-9 or two digits 01-12. -/
def matchMonth (cs : List Char) : Except PErr (Int × List Char) :=
  matchNum2 (fun v => 1 ≤ v && v ≤ 9) (fun v => 1 ≤ v && v ≤ 12) cs

/-- `%H` field: one digit 0-9 or two digits 00-23. -/
def matchHour (cs : List Char) : Except PErr (Int × List Char) :=
  matchNum2 (fun v => 0 ≤ v && v ≤ 9) (fun v => 0 ≤ v && v ≤ 23) cs

/-- `%M` field: one digit 0-9 or two digits 00-59. -/
def matchMinute (cs : List Char) : Except PErr (Int × List Char) :=
  matchNum2 (fun v => 0 ≤ v && v ≤ 9) (fun v => 0 ≤ v && v ≤ 59) cs

/-- The date checks performed by the `datetime` constructor that
strptime builds its result with: the year at least MINYEAR and the day
valid for the month. -/
def ctorCheck (y m d : Int) : Except PErr Unit :=
  if y < 1 then .error .valueError
  else if d > daysInMonth y m then .error .valueError
  else .ok ()

/-- `datetime.strptime(text, "%d.%m.%Y %H:%M")`, yielding
`(day, month, year, hour, minute)`. -/
def strptimeDMYHM (s : String) : Except PErr (Int × Int × Int × Int × Int) := do
  let cs := s.toList
  let (d, cs) ← matchDay cs
  let cs ← matchLit '.' cs
  let (m, cs) ← matchMonth cs
  let cs ← matchLit '.' cs
  let (y, cs) ← matchYear cs
  let cs ← matchSpaces cs
  let (hh, cs) ← matchHour cs
  let cs ← matchLit ':' cs
  let (mm, cs) ← matchMinute cs
  if cs ≠ [] then Except.error PErr.valueError
  else do
    let _ ← ctorCheck y m d
    Except.ok (d, m, y, hh, mm)

/-- `datetime.strptime(text, "%d.%m %H:%M")`; strptime defaults the
year to 1900. -/
def strptimeDMHM (s : String) : Except PErr (Int × Int × Int × Int) := do
  let cs := s.toList
  let (d, cs) ← matchDay cs
  let cs ← matchLit '.' cs
  let (m, cs) ← matchMonth cs
  let cs ← matchSpaces cs
  let (hh, cs) ← matchHour cs
  let cs ← matchLit ':' cs
  let (mm, cs) ← matchMinute cs
  if cs ≠ [] then Except.error PErr.valueError
  else do
    let _ ← ctorCheck 1900 m d
    Except.ok (d, m, hh, mm)

/-- `datetime.strptime(text, "%H:%M")`. -/
def strptimeHM (s : String) : Except PErr (Int × Int) := do
  let cs := s.toList
  let (hh, cs) ← matchHour cs
  let cs ← matchLit ':' cs
  let (mm, cs) ← matchMinute cs
  if cs ≠ [] then Except.error PErr.valueError
  else Except.ok (hh, mm)

/-- `TimeInputParser._parse_datetime` (bot.py:291-302): try the three
formats in order, continuing past a ValueError; `%H:%M` results are
combined with today's date, the others carry their own date (with 1900
as the default year of `%d.%m %H:%M`); all get the configured tzinfo. -/
def parseDatetimeFmt (text : String) (now : PyDateTime) : Except PErr PyDateTime :=
  match strptimeDMYHM text with
  | .ok (d, m, y, hh, mm) => .ok ⟨toOrdinal y m d, hh * 60 + mm⟩
  | .error _ =>
    match strptimeDMHM text with
    | .ok (d, m, hh, mm) => .ok ⟨toOrdinal 1900 m d, hh * 60 + mm⟩
    | .error _ =>
      match strptimeHM text with
      | .ok (hh, mm) => .ok ⟨now.ord, hh * 60 + mm⟩
      | .error _ => .error .valueError

/-- The dispatch inside the `try` of `TimeInputParser.parse`
(bot.py:248-253), applied to the lowered and stripped input. -/
def parseCore (s : String) (now : PyDateTime) : Except PErr PyDateTime :=
  if pyStartsWith s "через" then parseRelative s now
  else if pyContains s "в " then parseAbsolute s now
  else parseDatetimeFmt s now

/-- `TimeInputParser.parse` (bot.py:241-255): lower and strip the
input, dispatch on its shape, and catch exactly `ValueError` and
`IndexError`, turning them into `None`. Any other exception (in
particular OverflowError from huge relative offsets) propagates to the
caller. -/
def TimeInputParser.parse (input : String) (now : PyDateTime) :
    Except PErr (Option PyDateTime) :=
  match parseCore (pyStrip (pyLower input)) now with
  | .ok dt => .ok (some dt)
  | .error .valueError => .ok none
  | .error .indexError => .ok none
  | .error .overflowError => .error .overflowError

/-! ## Helper lemmas -/

/-- The arming loop of the reconciliation pass on a stopped scheduler:
each non-failing arm appends its job to the pending list, the scheduler
stays stopped, and its durable job store is untouched. -/
theorem foldl_arm_pending (f : Reminder → Bool) (l : List Reminder) (sc : Scheduler)
    (h : sc.running = false) :
    (l.foldl (fun s r => if f r then s else s.add_job r.toJob) sc).pending
      = sc.pending ++ (l.filter (fun r => !f r)).map Reminder.toJob
    ∧ (l.foldl (fun s r => if f r then s else s.add_job r.toJob) sc).running = false
    ∧ (l.foldl (fun s r => if f r then s else s.add_job r.toJob) sc).jobstore
      = sc.jobstore := by
  induction l generalizing sc with
  | nil => simp [h]
  | cons a l ih =>
    by_cases hf : f a
    · simpa [hf] using ih sc h
    · have hadd : (sc.add_job a.toJob).running = false := by
        simp [Scheduler.add_job, h]
      obtain ⟨h1, h2, h3⟩ := ih (sc.add_job a.toJob) hadd
      refine ⟨?_, ?_, ?_⟩
      · simp only [List.foldl_cons, if_neg hf]
        rw [h1]
        simp [Scheduler.add_job, h, hf]
      · simp only [List.foldl_cons, if_neg hf]
        exact h2
      · simp only [List.foldl_cons, if_neg hf]
        rw [h3]
        simp [Scheduler.add_job, h]

/-- What `restore_reminders` leaves in the pending list of a stopped
scheduler: one job per active reminder whose arm did not fail. -/
theorem restore_pending (st : Store) (sched : Scheduler) (now : Int) (f : Reminder → Bool)
    (h : sched.running = false) :
    (restore_reminders st sched now f).pending
      = ((st.reminders.filter (fun r => decide (now < r.remind_time))).filter
          (fun r => !f r)).map Reminder.toJob := by
  have h0 : sched.remove_all_jobs.running = false := by
    simp [Scheduler.remove_all_jobs, h]
  have hp : sched.remove_all_jobs.pending = [] := by
    simp [Scheduler.remove_all_jobs, h]
  unfold restore_reminders
  rw [(foldl_arm_pending f _ _ h0).1, hp]
  simp

/-- `restore_reminders` on a stopped scheduler never writes to the
durable job store. -/
theorem restore_jobstore (st : Store) (sched : Scheduler) (now : Int) (f : Reminder → Bool)
    (h : sched.running = false) :
    (restore_reminders st sched now f).jobstore = sched.jobstore := by
  have h0 : sched.remove_all_jobs.running = false := by
    simp [Scheduler.remove_all_jobs, h]
  unfold restore_reminders
  rw [(foldl_arm_pending f _ _ h0).2.2]
  simp [Scheduler.remove_all_jobs, h]

/-- In a list whose images under `f` are pairwise distinct, filtering
for the `f`-image of a member returns exactly that member. -/
theorem filter_key_eq_singleton {α β : Type} [DecidableEq β] (f : α → β) (l : List α)
    (hnd : (l.map f).Nodup) (r : α) (hr : r ∈ l) :
    l.filter (fun x => f x == f r) = [r] := by
  induction l with
  | nil => cases hr
  | cons a l ih =>
    rw [List.map_cons, List.nodup_cons] at hnd
    rcases List.mem_cons.mp hr with h | h
    · subst h
      rw [List.filter_cons, if_pos (by simp)]
      have hnil : l.filter (fun x => f x == f r) = [] := by
        refine List.filter_eq_nil_iff.mpr (fun x hx hbeq => ?_)
        exact hnd.1 (beq_iff_eq.mp hbeq ▸ List.mem_map_of_mem f hx)
      rw [hnil]
    · have hne : ¬((fun x => f x == f r) a = true) := by
        intro hbeq
        exact hnd.1 (beq_iff_eq.mp hbeq ▸ List.mem_map_of_mem f h)
      rw [List.filter_cons, if_neg hne]
      exact ih hnd.2 h

/-! ## Claim theorems -/

/-- C8: the clearAll step at the start of reconciliation
(`scheduler.remove_all_jobs()`, executed while the scheduler is still
stopped since `main` calls `restore_reminders` before
`scheduler.start()`) cancels every in-memory timer while leaving the
durable JobStore contents unchanged. -/
theorem C8_clearAll_frame (sched : Scheduler) (h : sched.running = false) :
    sched.remove_all_jobs.pending = [] ∧ sched.remove_all_jobs.jobstore = sched.jobstore := by
  simp [Scheduler.remove_all_jobs, h]

/-- C8 witness: concrete stopped scheduler with one pending timer and
one stored job. -/
theorem C8_clearAll_frame_witness :
    (Scheduler.remove_all_jobs ⟨false, [⟨"j", 1, 2, "t"⟩], [⟨"k", 3, 4, "u"⟩]⟩).pending = []
    ∧ (Scheduler.remove_all_jobs ⟨false, [⟨"j", 1, 2, "t"⟩], [⟨"k", 3, 4, "u"⟩]⟩).jobstore
      = (⟨false, [⟨"j", 1, 2, "t"⟩], [⟨"k", 3, 4, "u"⟩]⟩ : Scheduler).jobstore :=
  C8_clearAll_frame ⟨false, [⟨"j", 1, 2, "t"⟩], [⟨"k", 3, 4, "u"⟩]⟩ rfl

/-- C10: for max_retries ≥ 1, `send_reminder_with_retry` behaves
exactly like one `send_reminder` call: `send_reminder` catches every
exception internally and returns normally, so the loop breaks after the
first attempt and no retry occurs. -/
theorem C10_retry_equiv (o : TgOutcome) (cid : Int) (txt : String) (n : Nat)
    (h : 1 ≤ n) :
    ∃ t, send_reminder o cid txt = .ok t ∧ send_reminder_with_retry o cid txt n = (t, 1) := by
  obtain ⟨m, rfl⟩ : ∃ m, n = m + 1 := ⟨n - 1, by omega⟩
  cases o <;> exact ⟨_, rfl, rfl⟩

/-- C10 witness: three allowed attempts against a failing transport
still make exactly one attempt, which logs and returns. -/
theorem C10_retry_equiv_witness :
    send_reminder_with_retry .failure 1 "x" 3 = ([Effect.logError], 1) := by
  obtain ⟨t, h1, h2⟩ := C10_retry_equiv .failure 1 "x" 3 (by decide)
  have h1x : (Except.ok [Effect.logError] : Except Unit (List Effect)) = Except.ok t := by
    rw [← h1]
    rfl
  injection h1x with ht
  rw [← ht] at h2
  exact h2

/-- C1 counterexample: a store whose only reminder has
`remind_time = 5`, already past at reconciliation time `now = 10`;
`restore_reminders` (whose query keeps only rows with
`remind_time > now`) arms nothing at all, so the reminder is never
re-armed and never fires, contradicting the claimed late-delivery
behaviour. -/
theorem C1_pastDue_counterexample :
    (restore_reminders ⟨[⟨1, 7, 7, "missed", 5, 0, "reminder_7_0"⟩], 2⟩ ⟨false, [], []⟩ 10
      (fun _ => false)).pending = [] := rfl

/-- C1 amended: `restore_reminders` arms only reminders whose
`remind_time` is strictly in the future at reconciliation time; a
reminder already due or past is skipped entirely — no timer with its
`job_id` exists after recovery, so its delivery callback never fires. -/
theorem C1_amended_past_never_armed (st : Store) (sched : Scheduler) (now : Int)
    (f : Reminder → Bool) (r : Reminder) (hrun : sched.running = false)
    (hnd : (st.reminders.map (fun x => x.job_id)).Nodup)
    (hr : r ∈ st.reminders) (hpast : r.remind_time ≤ now) :
    r.job_id ∉ (restore_reminders st sched now f).pending.map (fun j => j.id) := by
  rw [restore_pending st sched now f hrun]
  intro hmem
  rw [List.map_map] at hmem
  obtain ⟨x, hx, hxe⟩ := List.mem_map.mp hmem
  have hx1 := List.mem_filter.mp hx
  have hx2 := List.mem_filter.mp hx1.1
  have hxr : x = r :=
    List.inj_on_of_nodup_map hnd hx2.1 hr (show x.job_id = r.job_id from hxe)
  have hfut : now < x.remind_time := of_decide_eq_true hx2.2
  rw [hxr] at hfut
  omega

/-- C1 amended witness: a past-due reminder's job id is absent from the
timers armed by recovery. -/
theorem C1_amended_past_never_armed_witness :
    (⟨1, 7, 7, "missed", 5, 0, "rj"⟩ : Reminder).job_id
      ∉ (restore_reminders ⟨[⟨1, 7, 7, "missed", 5, 0, "rj"⟩], 2⟩ ⟨false, [], []⟩ 10
          (fun _ => false)).pending.map (fun j => j.id) :=
  C1_amended_past_never_armed ⟨[⟨1, 7, 7, "missed", 5, 0, "rj"⟩], 2⟩ ⟨false, [], []⟩ 10
    (fun _ => false) ⟨1, 7, 7, "missed", 5, 0, "rj"⟩ rfl (by decide) (by decide) (by decide)

/-- C3: a create whose remind_time is not strictly in the future fails
validation with a ValueError before anything is persisted or armed —
the store and the scheduler are unchanged; a strictly-future
remind_time passes the validator. -/
theorem C3_past_time_rejected (st : Store) (sched : Scheduler) (now nowTs uid cid : Int)
    (text : String) (rt : Int) :
    (rt ≤ now →
        createFlow st sched now nowTs uid cid text rt = (.error .valueError, st, sched))
    ∧ (now < rt → validate_remind_time now rt = .ok rt) := by
  constructor
  · intro h
    have hv : validate_remind_time now rt = .error .valueError := by
      simp [validate_remind_time, h]
    by_cases ht : text.length > 500
    · simp [createFlow, mkReminderCreate, validate_text, ht]
    · simp [createFlow, mkReminderCreate, validate_text, ht, hv]
  · intro h
    simp [validate_remind_time, not_le.mpr h]

/-- C3 witness: `remind_time = 5` at `now = 10` is rejected leaving
state untouched; `remind_time = 20` at `now = 10` passes validation. -/
theorem C3_past_time_rejected_witness :
    createFlow ⟨[], 1⟩ ⟨true, [], []⟩ 10 0 1 1 "x" 5
      = (.error .valueError, ⟨[], 1⟩, ⟨true, [], []⟩)
    ∧ validate_remind_time 10 20 = .ok 20 :=
  ⟨(C3_past_time_rejected ⟨[], 1⟩ ⟨true, [], []⟩ 10 0 1 1 "x" 5).1 (by decide),
   (C3_past_time_rejected ⟨[], 1⟩ ⟨true, [], []⟩ 10 0 1 1 "x" 20).2 (by decide)⟩

/-- C5: starting from a stopped scheduler with no live timers, the
reconciliation pass arms exactly one timer per active reminder
(remind_time strictly in the future), with `fire_time` equal to the
reminder's `remind_time` and ids pairwise distinct; and with an
arbitrary per-item arming-failure pattern `f`, every non-failing active
reminder is still armed — one failing arm never aborts the loop. -/
theorem C5_reconciliation (st : Store) (sched : Scheduler) (now : Int)
    (f : Reminder → Bool) (hrun : sched.running = false) (hpend : sched.pending = [])
    (hnd : (st.reminders.map (fun r => r.job_id)).Nodup) :
    ((restore_reminders st sched now (fun _ => false)).pending.map
        (fun j => (j.id, j.fire_time))
      = (st.reminders.filter (fun r => decide (now < r.remind_time))).map
          (fun r => (r.job_id, r.remind_time)))
    ∧ ((restore_reminders st sched now (fun _ => false)).pending.map (fun j => j.id)).Nodup
    ∧ ((restore_reminders st sched now f).pending.map (fun j => (j.id, j.fire_time))
      = ((st.reminders.filter (fun r => decide (now < r.remind_time))).filter
          (fun r => !f r)).map (fun r => (r.job_id, r.remind_time))) := by
  have ha := restore_pending st sched now (fun _ => false) hrun
  have hb := restore_pending st sched now f hrun
  refine ⟨?_, ?_, ?_⟩
  · rw [ha, List.map_map]
    simp [Reminder.toJob, Function.comp]
  · rw [ha, List.map_map]
    have hsub :
        ((st.reminders.filter (fun r => decide (now < r.remind_time))).map
            (fun r => r.job_id)).Sublist (st.reminders.map (fun r => r.job_id)) :=
      (List.filter_sublist _).map _
    have : ((st.reminders.filter (fun r => decide (now < r.remind_time))).map
        (fun r => r.job_id)).Nodup := hsub.nodup hnd
    simpa [Reminder.toJob, Function.comp] using this
  · rw [hb, List.map_map]
    simp [Reminder.toJob, Function.comp]

/-- C5 witness: two active reminders (and one already past) on a fresh
stopped scheduler; with no failures both are armed with matching fire
times; when arming of "jf" fails, "ja" is still armed. -/
theorem C5_reconciliation_witness :
    ((restore_reminders ⟨[⟨1, 1, 1, "a", 20, 0, "ja"⟩, ⟨2, 1, 1, "b", 5, 0, "jb"⟩,
          ⟨3, 1, 1, "c", 30, 0, "jf"⟩], 4⟩ ⟨false, [], []⟩ 10 (fun _ => false)).pending.map
        (fun j => (j.id, j.fire_time)) = [("ja", 20), ("jf", 30)])
    ∧ ((restore_reminders ⟨[⟨1, 1, 1, "a", 20, 0, "ja"⟩, ⟨2, 1, 1, "b", 5, 0, "jb"⟩,
          ⟨3, 1, 1, "c", 30, 0, "jf"⟩], 4⟩ ⟨false, [], []⟩ 10 (fun _ => false)).pending.map
        (fun j => j.id)).Nodup
    ∧ ((restore_reminders ⟨[⟨1, 1, 1, "a", 20, 0, "ja"⟩, ⟨2, 1, 1, "b", 5, 0, "jb"⟩,
          ⟨3, 1, 1, "c", 30, 0, "jf"⟩], 4⟩ ⟨false, [], []⟩ 10
          (fun r => r.job_id == "jf")).pending.map
        (fun j => (j.id, j.fire_time)) = [("ja", 20)]) :=
  C5_reconciliation ⟨[⟨1, 1, 1, "a", 20, 0, "ja"⟩, ⟨2, 1, 1, "b", 5, 0, "jb"⟩,
      ⟨3, 1, 1, "c", 30, 0, "jf"⟩], 4⟩ ⟨false, [], []⟩ 10 (fun r => r.job_id == "jf")
    rfl rfl (by decide)

/-- C6: `get_user_reminders` returns exactly the given user's reminders
with `remind_time` strictly after now (as a permutation of the filtered
table and by a membership characterisation), sorted by `remind_time`
ascending; being a pure function of the store, it modifies no state. -/
theorem C6_list_active (st : Store) (uid now : Int) :
    (get_user_reminders st uid now).Perm
      (st.reminders.filter (fun r => r.user_id == uid && decide (now < r.remind_time)))
    ∧ List.Sorted remLE (get_user_reminders st uid now)
    ∧ ∀ r : Reminder, r ∈ get_user_reminders st uid now ↔
        r ∈ st.reminders ∧ r.user_id = uid ∧ now < r.remind_time := by
  refine ⟨List.perm_insertionSort _ _, List.sorted_insertionSort _ _, fun r => ?_⟩
  unfold get_user_reminders
  rw [(List.perm_insertionSort _ _).mem_iff, List.mem_filter]
  simp [and_assoc]

/-- C2 counterexample: a whitespace-only text (empty after trimming) is
accepted by creation — `validate_text` checks only the raw length — so
a reminder with empty stored text is persisted, contradicting the
claimed rejection of texts that are empty after trimming. -/
theorem C2_empty_text_counterexample :
    (createFlow ⟨[], 1⟩ ⟨true, [], []⟩ 0 5 2 3 "   " 10).1
      = .ok ⟨1, 2, 3, "", 10, 5, "reminder_2_5"⟩
    ∧ (createFlow ⟨[], 1⟩ ⟨true, [], []⟩ 0 5 2 3 "   " 10).2.1.reminders
      = [⟨1, 2, 3, "", 10, 5, "reminder_2_5"⟩] :=
  ⟨rfl, rfl⟩

/-- C2 amended: creation validates the RAW (untrimmed) text length:
it succeeds exactly when the raw length is at most 500, storing the
trimmed text (texts that are empty after trimming included), and fails
with a ValueError — persisting nothing and arming nothing — exactly
when the raw length exceeds 500. -/
theorem C2_amended_raw_length (st : Store) (sched : Scheduler) (now nowTs uid cid : Int)
    (text : String) (rt : Int) (hrt : now < rt)
    (hfresh : ∀ r ∈ st.reminders, r.job_id ≠ mkJobId uid nowTs) :
    (text.length ≤ 500 →
        (createFlow st sched now nowTs uid cid text rt).1
          = .ok ⟨st.nextId, uid, cid, pyStrip text, rt, nowTs, mkJobId uid nowTs⟩)
    ∧ (500 < text.length →
        createFlow st sched now nowTs uid cid text rt = (.error .valueError, st, sched)) := by
  constructor
  · intro hlen
    have hvt : validate_text text = .ok (pyStrip text) := by
      simp [validate_text, Nat.not_lt.mpr hlen]
    have hvr : validate_remind_time now rt = .ok rt := by
      simp [validate_remind_time, not_le.mpr hrt]
    have hdup : st.reminders.any (fun x => x.job_id == mkJobId uid nowTs) = false := by
      rw [List.any_eq_false]
      intro x hx
      simpa using hfresh x hx
    simp [createFlow, mkReminderCreate, hvt, hvr, create_reminder, hdup]
  · intro hlen
    have hvt : validate_text text = .error .valueError := by
      simp [validate_text, hlen]
    simp [createFlow, mkReminderCreate, hvt]

/-- C2 amended witness: a 4-character text with surrounding blanks is
accepted and stored trimmed. -/
theorem C2_amended_raw_length_witness :
    (createFlow ⟨[], 1⟩ ⟨true, [], []⟩ 0 5 2 3 " hi " 10).1
      = .ok ⟨1, 2, 3, "hi", 10, 5, "reminder_2_5"⟩ :=
  (C2_amended_raw_length ⟨[], 1⟩ ⟨true, [], []⟩ 0 5 2 3 " hi " 10 (by decide)
    (by simp)).1 (by decide)

/-- C4 counterexample: two creates by the same user at the same epoch
second produce the same `job_id` (`reminder_1_100`), so the second
create does not succeed: the unique constraint on `job_id` makes its
commit raise IntegrityError — refuting the claim that two creates by
the same user both succeed with fresh unique job_ids. -/
theorem C4_jobid_collision_counterexample :
    (createFlow ⟨[], 1⟩ ⟨true, [], []⟩ 0 100 1 1 "a" 10).1
      = .ok ⟨1, 1, 1, "a", 10, 100, "reminder_1_100"⟩
    ∧ (createFlow (createFlow ⟨[], 1⟩ ⟨true, [], []⟩ 0 100 1 1 "a" 10).2.1
        (createFlow ⟨[], 1⟩ ⟨true, [], []⟩ 0 100 1 1 "a" 10).2.2 0 100 1 1 "b" 10).1
      = .error .integrityError :=
  ⟨rfl, rfl⟩

/-- C4 amended: the unique constraint still guarantees that every
SUCCESSFUL create has a `job_id` distinct from every reminder already
in the store (a colliding insert fails with IntegrityError instead of
succeeding); the successful row is appended to the table. Distinctness
of the job_ids of two same-user creates holds only when their creation
timestamps differ in seconds. -/
theorem C4_amended_unique_on_success (st : Store) (sched : Scheduler) (nowTs : Int)
    (rc : ReminderCreate) (m : Reminder) (st1 : Store) (sd1 : Scheduler)
    (h : create_reminder st sched nowTs rc = (.ok m, st1, sd1)) :
    m.job_id ∉ st.reminders.map (fun r => r.job_id)
    ∧ st1.reminders = st.reminders ++ [m] := by
  simp only [create_reminder] at h
  by_cases hdup : st.reminders.any (fun x => x.job_id == mkJobId rc.user_id nowTs) = true
  · rw [if_pos hdup] at h
    simp [Prod.ext_iff] at h
  · rw [if_neg hdup] at h
    simp only [Prod.mk.injEq, Except.ok.injEq] at h
    obtain ⟨h1, h2, h3⟩ := h
    constructor
    · rw [← h1]
      intro hmem
      obtain ⟨x, hx, hxe⟩ := List.mem_map.mp hmem
      exact hdup (List.any_eq_true.mpr ⟨x, hx, by simp [hxe]⟩)
    · rw [← h2, ← h1]

/-- C4 amended witness: a successful create on an empty store has a
job_id trivially absent from the (empty) store and appends its row. -/
theorem C4_amended_unique_on_success_witness :
    ((⟨1, 1, 1, "a", 10, 100, "reminder_1_100"⟩ : Reminder).job_id
        ∉ (([] : List Reminder)).map (fun r => r.job_id))
    ∧ (⟨[⟨1, 1, 1, "a", 10, 100, "reminder_1_100"⟩], 2⟩ : Store).reminders
        = [] ++ [⟨1, 1, 1, "a", 10, 100, "reminder_1_100"⟩] :=
  C4_amended_unique_on_success ⟨[], 1⟩ ⟨true, [], []⟩ 100 ⟨1, 1, "a", 10⟩
    ⟨1, 1, 1, "a", 10, 100, "reminder_1_100"⟩
    ⟨[⟨1, 1, 1, "a", 10, 100, "reminder_1_100"⟩], 2⟩
    ⟨true, [], [⟨"reminder_1_100", 10, 1, "a"⟩]⟩ rfl

/-- C7: deleting an existing reminder returns True and removes exactly
its row; deleting it again returns False without touching the store and
without raising; and the deleted id never appears in a subsequent
`get_user_reminders`. The hypotheses are the primary-key invariant
(distinct ids) and the non-empty `job_id` that `create_reminder` always
generates, which the Python truthiness test `if job_id:` relies on. -/
theorem C7_delete_idempotent (st : Store) (sched : Scheduler) (r : Reminder) (uid now : Int)
    (hids : (st.reminders.map (fun x => x.id)).Nodup)
    (hr : r ∈ st.reminders) (hjid : r.job_id ≠ "") :
    (delete_reminder st sched r.id).1 = .ok true
    ∧ (delete_reminder st sched r.id).2.1.reminders
        = st.reminders.filter (fun x => !(x.id == r.id))
    ∧ (delete_reminder (delete_reminder st sched r.id).2.1
        (delete_reminder st sched r.id).2.2 r.id).1 = .ok false
    ∧ (delete_reminder (delete_reminder st sched r.id).2.1
        (delete_reminder st sched r.id).2.2 r.id).2.1 = (delete_reminder st sched r.id).2.1
    ∧ r.id ∉ (get_user_reminders (delete_reminder st sched r.id).2.1 uid now).map
        (fun x => x.id) := by
  have hfil : st.reminders.filter (fun x => x.id == r.id) = [r] := by
    simpa using filter_key_eq_singleton (fun x => x.id) st.reminders hids r hr
  have hso : scalarOneOrNone st.reminders r.id = .ok (some r.job_id) := by
    rw [scalarOneOrNone, hfil]
  have hjb : (r.job_id == "") = false := by
    simpa using hjid
  have hd1 : delete_reminder st sched r.id
      = (.ok true, ⟨st.reminders.filter (fun x => !(x.id == r.id)), st.nextId⟩,
          match sched.remove_job r.job_id with
          | .ok s1 => s1
          | .error _ => sched) := by
    simp only [delete_reminder, hso, hjb]
    simp
  have hnil2 : (st.reminders.filter (fun x => !(x.id == r.id))).filter
      (fun x => x.id == r.id) = [] := by
    rw [List.filter_filter]
    refine List.filter_eq_nil_iff.mpr (fun x _ => ?_)
    cases hxe : (x.id == r.id) <;> simp [hxe]
  have hso2 : scalarOneOrNone (st.reminders.filter (fun x => !(x.id == r.id))) r.id
      = .ok none := by
    rw [scalarOneOrNone, hnil2]
  refine ⟨by rw [hd1], by rw [hd1], ?_, ?_, ?_⟩
  · rw [hd1]
    simp only [delete_reminder, hso2]
  · rw [hd1]
    simp only [delete_reminder, hso2]
  · intro hmem
    obtain ⟨x, hx, hxe⟩ := List.mem_map.mp hmem
    rw [hd1] at hx
    have hx1 : x ∈ (⟨st.reminders.filter (fun x => !(x.id == r.id)), st.nextId⟩ :
        Store).reminders.filter
        (fun q => q.user_id == uid && decide (now < q.remind_time)) :=
      (List.perm_insertionSort _ _).mem_iff.mp hx
    have hx2 := (List.mem_filter.mp (List.mem_filter.mp hx1).1).2
    rw [hxe] at hx2
    simp at hx2

/-- C7 witness: a one-row store; the first delete succeeds, the second
returns False, and the listing no longer contains the id. -/
theorem C7_delete_idempotent_witness :
    (delete_reminder ⟨[⟨1, 1, 1, "a", 10, 0, "j1"⟩], 2⟩ ⟨true, [], [⟨"j1", 10, 1, "a"⟩]⟩
        (⟨1, 1, 1, "a", 10, 0, "j1"⟩ : Reminder).id).1 = .ok true
    ∧ (delete_reminder ⟨[⟨1, 1, 1, "a", 10, 0, "j1"⟩], 2⟩ ⟨true, [], [⟨"j1", 10, 1, "a"⟩]⟩
        (⟨1, 1, 1, "a", 10, 0, "j1"⟩ : Reminder).id).2.1.reminders
        = ([⟨1, 1, 1, "a", 10, 0, "j1"⟩] : List Reminder).filter
            (fun x => !(x.id == (⟨1, 1, 1, "a", 10, 0, "j1"⟩ : Reminder).id))
    ∧ (delete_reminder
        (delete_reminder ⟨[⟨1, 1, 1, "a", 10, 0, "j1"⟩], 2⟩ ⟨true, [], [⟨"j1", 10, 1, "a"⟩]⟩
          (⟨1, 1, 1, "a", 10, 0, "j1"⟩ : Reminder).id).2.1
        (delete_reminder ⟨[⟨1, 1, 1, "a", 10, 0, "j1"⟩], 2⟩ ⟨true, [], [⟨"j1", 10, 1, "a"⟩]⟩
          (⟨1, 1, 1, "a", 10, 0, "j1"⟩ : Reminder).id).2.2
        (⟨1, 1, 1, "a", 10, 0, "j1"⟩ : Reminder).id).1 = .ok false
    ∧ (delete_reminder
        (delete_reminder ⟨[⟨1, 1, 1, "a", 10, 0, "j1"⟩], 2⟩ ⟨true, [], [⟨"j1", 10, 1, "a"⟩]⟩
          (⟨1, 1, 1, "a", 10, 0, "j1"⟩ : Reminder).id).2.1
        (delete_reminder ⟨[⟨1, 1, 1, "a", 10, 0, "j1"⟩], 2⟩ ⟨true, [], [⟨"j1", 10, 1, "a"⟩]⟩
          (⟨1, 1, 1, "a", 10, 0, "j1"⟩ : Reminder).id).2.2
        (⟨1, 1, 1, "a", 10, 0, "j1"⟩ : Reminder).id).2.1
        = (delete_reminder ⟨[⟨1, 1, 1, "a", 10, 0, "j1"⟩], 2⟩ ⟨true, [], [⟨"j1", 10, 1, "a"⟩]⟩
          (⟨1, 1, 1, "a", 10, 0, "j1"⟩ : Reminder).id).2.1
    ∧ (⟨1, 1, 1, "a", 10, 0, "j1"⟩ : Reminder).id
        ∉ (get_user_reminders
            (delete_reminder ⟨[⟨1, 1, 1, "a", 10, 0, "j1"⟩], 2⟩ ⟨true, [], [⟨"j1", 10, 1, "a"⟩]⟩
              (⟨1, 1, 1, "a", 10, 0, "j1"⟩ : Reminder).id).2.1 1 0).map (fun x => x.id) :=
  C7_delete_idempotent ⟨[⟨1, 1, 1, "a", 10, 0, "j1"⟩], 2⟩ ⟨true, [], [⟨"j1", 10, 1, "a"⟩]⟩
    ⟨1, 1, 1, "a", 10, 0, "j1"⟩ 1 0 (by decide) (by decide) (by decide)

/-- C9 counterexample: `parse("через 2000000000000 мин")` reaches
`timedelta(minutes=2000000000000)`, whose normalised day count exceeds
timedelta's bound, raising OverflowError — which the handler
`except (ValueError, IndexError)` does not catch, so the exception
propagates out of `parse`, refuting the claim that parse never
propagates an exception. -/
theorem C9_overflow_counterexample :
    TimeInputParser.parse "через 2000000000000 мин" ⟨738000, 600⟩
      = .error .overflowError := rfl

/-- C9 amended: `parse` returns a datetime or None for every input —
malformed relative phrases, out-of-range hour or minute values and
unparseable date formats all raise ValueError or IndexError, which are
caught and become None — except that an OverflowError (from a relative
offset or date arithmetic exceeding the datetime range) is not caught
and propagates. -/
theorem C9_amended_total_except_overflow (s : String) (now : PyDateTime) :
    (∃ o, TimeInputParser.parse s now = .ok o)
    ∨ TimeInputParser.parse s now = .error .overflowError := by
  cases h : parseCore (pyStrip (pyLower s)) now with
  | ok dt => exact .inl ⟨some dt, by simp [TimeInputParser.parse, h]⟩
  | error e =>
    cases e with
    | valueError => exact .inl ⟨none, by simp [TimeInputParser.parse, h]⟩
    | indexError => exact .inl ⟨none, by simp [TimeInputParser.parse, h]⟩
    | overflowError => exact .inr (by simp [TimeInputParser.parse, h])
